import Mathlib

/-!
Verification development for the forest-fire dashboard client.

The client code is TypeScript/React; the definitions below are a shallow
embedding of its data model and of the pieces of logic the specification
talks about: the mock risk-zone / spread-point generators, the scripted
processing-step animation, the playback time-step advance, the response
mapping with defaults, the JSON export round trip, and the percentage
denominator guard.  JavaScript numbers are modelled as rationals, the
`Math.random()` stream as an explicit function `ℕ → ℚ` whose values are
assumed to lie in `[0, 1)`, and `Date` values as epoch milliseconds.
-/

/-! ## Data model (`src/types.ts`) -/

structure Bounds where
  center : ℚ × ℚ
  bounds : (ℚ × ℚ) × (ℚ × ℚ)
deriving DecidableEq, Repr

structure Datasets where
  dem : Bool
  weather : Bool
  lulc : Bool
  fireHistory : Bool
deriving DecidableEq, Repr

structure Region where
  id : String
  name : String
  state : String
  area : ℚ
  bounds : Bounds
  datasets : Datasets
deriving DecidableEq, Repr

inductive Risk
  | high
  | moderate
  | low
deriving DecidableEq, Repr

structure RiskZone where
  id : ℕ
  lat : ℚ
  lng : ℚ
  risk : Risk
  confidence : ℚ
deriving DecidableEq, Repr

structure SpreadPoint where
  lat : ℚ
  lng : ℚ
  intensity : ℚ
  timestamp : ℕ
deriving DecidableEq, Repr

inductive StepStatus
  | pending
  | processing
  | completed
  | error
deriving DecidableEq, Repr

structure ProcessingStep where
  id : ℕ
  name : String
  status : StepStatus
  progress : ℕ
deriving DecidableEq, Repr

/-! ## Mock data generators (`App.tsx`, `generateMockRiskZones` /
`generateMockSpreadData`)

Each iteration of `generateMockRiskZones` draws four values from
`Math.random()` in source order: the classification draw, the latitude
jitter, the longitude jitter and the confidence draw; zone `i` therefore
reads stream positions `4*i .. 4*i+3`.  `generateMockSpreadData` draws
three values per point (latitude, longitude, intensity), consuming the
stream across the five time-step batches in order. -/

def classifyRisk (r : ℚ) : Risk :=
  if r > 6/10 then .high else if r > 3/10 then .moderate else .low

def generateMockRiskZones (region : Region) (rand : ℕ → ℚ) : List RiskZone :=
  (List.range 25).map fun i =>
    { id := i
      lat := region.bounds.center.1 + (rand (4*i + 1) - 1/2) * (6/10)
      lng := region.bounds.center.2 + (rand (4*i + 2) - 1/2) * (6/10)
      risk := classifyRisk (rand (4*i))
      confidence := 65/100 + rand (4*i + 3) * (35/100) }

def timeStepsList : List ℕ := [1, 2, 3, 6, 12]

def genSpreadPoints (center : ℚ × ℚ) (t : ℕ) (rand : ℕ → ℚ) (off : ℕ) :
    List SpreadPoint :=
  (List.range (t * 6)).map fun i =>
    { lat := center.1 + (rand (off + 3*i) - 1/2) * ((t : ℚ) * (12/100))
      lng := center.2 + (rand (off + 3*i + 1) - 1/2) * ((t : ℚ) * (12/100))
      intensity := rand (off + 3*i + 2) * (8/10) + 2/10
      timestamp := t }

def generateMockSpreadData (region : Region) (rand : ℕ → ℚ) :
    List (ℕ × List SpreadPoint) :=
  (timeStepsList.foldl
    (fun (acc : List (ℕ × List SpreadPoint) × ℕ) t =>
      (acc.1 ++ [(t, genSpreadPoints region.bounds.center t rand acc.2)],
       acc.2 + 3 * (t * 6)))
    ([], 0)).1

/-- The random stream assumption: every `Math.random()` draw lies in `[0,1)`. -/
def RandStream (rand : ℕ → ℚ) : Prop :=
  ∀ n, 0 ≤ rand n ∧ rand n < 1

/-- A concrete deterministic stand-in for the random stream. -/
def constHalf : ℕ → ℚ := fun _ => 1/2

/-- The Dehradun entry of the hardcoded `mockRegions` catalog
(`RegionSelector.tsx`). -/
def dehradun : Region :=
  { id := "uttarakhand-dehradun"
    name := "Dehradun District"
    state := "Uttarakhand"
    area := 3088
    bounds := { center := (30.3165, 78.0322)
                bounds := ((29.8, 77.5), (30.8, 78.5)) }
    datasets := { dem := true, weather := true, lulc := true, fireHistory := true } }

def nainital : Region :=
  { id := "uttarakhand-nainital"
    name := "Nainital District"
    state := "Uttarakhand"
    area := 4251
    bounds := { center := (29.3803, 79.4636)
                bounds := ((29.0, 79.0), (29.8, 80.0)) }
    datasets := { dem := true, weather := true, lulc := true, fireHistory := true } }

def shimla : Region :=
  { id := "himachal-shimla"
    name := "Shimla District"
    state := "Himachal Pradesh"
    area := 5131
    bounds := { center := (31.1048, 77.1734)
                bounds := ((30.5, 76.5), (31.7, 78.0)) }
    datasets := { dem := true, weather := true, lulc := true, fireHistory := true } }

def kodagu : Region :=
  { id := "karnataka-kodagu"
    name := "Kodagu District"
    state := "Karnataka"
    area := 4102
    bounds := { center := (12.3375, 75.8069)
                bounds := ((12.0, 75.4), (12.7, 76.2)) }
    datasets := { dem := true, weather := true, lulc := true, fireHistory := true } }

def mockRegions : List Region := [dehradun, nainital, shimla, kodagu]

/-! ## C1: the mock risk-zone generator -/

/-- The conclusion of claim C1, stated over the embedded generator. -/
def C1Concl (region : Region) (rand : ℕ → ℚ) : Prop :=
  (generateMockRiskZones region rand).length = 25 ∧
  (∀ z ∈ generateMockRiskZones region rand,
    (65/100 ≤ z.confidence ∧ z.confidence ≤ 1) ∧
    |z.lat - region.bounds.center.1| ≤ 3/10 ∧
    |z.lng - region.bounds.center.2| ≤ 3/10) ∧
  (∀ i, i < 25 →
    ((rand (4*i) > 6/10 →
      ((generateMockRiskZones region rand).getD i ⟨0, 0, 0, .low, 0⟩).risk = .high) ∧
     (3/10 < rand (4*i) ∧ rand (4*i) ≤ 6/10 →
      ((generateMockRiskZones region rand).getD i ⟨0, 0, 0, .low, 0⟩).risk = .moderate) ∧
     (rand (4*i) ≤ 3/10 →
      ((generateMockRiskZones region rand).getD i ⟨0, 0, 0, .low, 0⟩).risk = .low)))

theorem riskZones_getD (region : Region) (rand : ℕ → ℚ) (i : ℕ) (hi : i < 25) :
    (generateMockRiskZones region rand).getD i ⟨0, 0, 0, .low, 0⟩ =
      { id := i
        lat := region.bounds.center.1 + (rand (4*i + 1) - 1/2) * (6/10)
        lng := region.bounds.center.2 + (rand (4*i + 2) - 1/2) * (6/10)
        risk := classifyRisk (rand (4*i))
        confidence := 65/100 + rand (4*i + 3) * (35/100) } := by
  have hlen : i < (generateMockRiskZones region rand).length := by
    simpa [generateMockRiskZones] using hi
  rw [List.getD_eq_getElem _ _ hlen]
  simp [generateMockRiskZones]

/-- C1: every invocation of the mock risk-zone generator yields exactly 25
zones; each zone's risk category matches its generating draw's threshold
bucket (`high` for r > 0.6, `moderate` for 0.3 < r ≤ 0.6, `low` otherwise);
coordinates are jittered by at most 0.3° per axis around the region center;
confidence lies in [0.65, 1.0]. -/
theorem C1_riskZone_generator (region : Region) (rand : ℕ → ℚ)
    (h : RandStream rand) : C1Concl region rand := by
  refine ⟨by simp [generateMockRiskZones], ?_, ?_⟩
  · intro z hz
    simp only [generateMockRiskZones, List.mem_map, List.mem_range] at hz
    obtain ⟨i, _, rfl⟩ := hz
    obtain ⟨hc0, hc1⟩ := h (4*i + 3)
    obtain ⟨ha0, ha1⟩ := h (4*i + 1)
    obtain ⟨hb0, hb1⟩ := h (4*i + 2)
    refine ⟨⟨by simp; linarith, by simp; linarith⟩, ?_, ?_⟩
    · simp only [add_sub_cancel_left]
      rw [abs_le]
      constructor <;> nlinarith
    · simp only [add_sub_cancel_left]
      rw [abs_le]
      constructor <;> nlinarith
  · intro i hi
    rw [riskZones_getD region rand i hi]
    refine ⟨?_, ?_, ?_⟩
    · intro hr
      simp [classifyRisk, hr]
    · rintro ⟨h1, h2⟩
      simp [classifyRisk, not_lt.mpr h2, h1]
    · intro hr
      have h6 : rand (4*i) ≤ 6/10 := by linarith
      simp [classifyRisk, not_lt.mpr hr, not_lt.mpr h6]

theorem C1_riskZone_generator_witness :
    RandStream constHalf ∧ C1Concl dehradun constHalf :=
  have h : RandStream constHalf := fun _ => by norm_num [constHalf]
  ⟨h, C1_riskZone_generator dehradun constHalf h⟩

/-! ## C2: the mock spread-point generator -/

theorem genSpreadPoints_length (center : ℚ × ℚ) (t : ℕ) (rand : ℕ → ℚ)
    (off : ℕ) : (genSpreadPoints center t rand off).length = 6 * t := by
  simp [genSpreadPoints, Nat.mul_comm]

theorem genSpreadPoints_mem (center : ℚ × ℚ) (t : ℕ) (rand : ℕ → ℚ) (off : ℕ)
    (h : RandStream rand) :
    ∀ p ∈ genSpreadPoints center t rand off,
      |p.lat - center.1| ≤ (t : ℚ) * (6/100) ∧
      |p.lng - center.2| ≤ (t : ℚ) * (6/100) ∧
      (2/10 ≤ p.intensity ∧ p.intensity ≤ 1) ∧
      p.timestamp = t := by
  intro p hp
  simp only [genSpreadPoints, List.mem_map, List.mem_range] at hp
  obtain ⟨i, _, rfl⟩ := hp
  obtain ⟨ha0, ha1⟩ := h (off + 3*i)
  obtain ⟨hb0, hb1⟩ := h (off + 3*i + 1)
  obtain ⟨hc0, hc1⟩ := h (off + 3*i + 2)
  have ht : (0:ℚ) ≤ (t : ℚ) := Nat.cast_nonneg t
  refine ⟨?_, ?_, ⟨by simp; linarith, by simp; linarith⟩, rfl⟩
  · simp only [add_sub_cancel_left]
    rw [abs_le]
    constructor <;> nlinarith
  · simp only [add_sub_cancel_left]
    rw [abs_le]
    constructor <;> nlinarith

/-- The conclusion of claim C2, stated over the embedded generator. -/
def C2Concl (region : Region) (rand : ℕ → ℚ) : Prop :=
  (generateMockSpreadData region rand).map Prod.fst = timeStepsList ∧
  ∀ t ∈ timeStepsList, ∃ pts,
    (generateMockSpreadData region rand).lookup t = some pts ∧
    pts.length = 6 * t ∧
    ∀ p ∈ pts,
      |p.lat - region.bounds.center.1| ≤ (t : ℚ) * (6/100) ∧
      |p.lng - region.bounds.center.2| ≤ (t : ℚ) * (6/100) ∧
      (2/10 ≤ p.intensity ∧ p.intensity ≤ 1) ∧
      p.timestamp = t

/-- C2: the mock spread-point generator maps each time step t of
[1,2,3,6,12] to exactly 6·t points, each jittered by at most t·0.06° per
axis around the region center, with intensity in [0.2, 1.0] and timestamp
equal to t. -/
theorem C2_spread_generator (region : Region) (rand : ℕ → ℚ)
    (h : RandStream rand) : C2Concl region rand := by
  have hu : generateMockSpreadData region rand =
      [(1, genSpreadPoints region.bounds.center 1 rand 0),
       (2, genSpreadPoints region.bounds.center 2 rand 18),
       (3, genSpreadPoints region.bounds.center 3 rand 54),
       (6, genSpreadPoints region.bounds.center 6 rand 108),
       (12, genSpreadPoints region.bounds.center 12 rand 216)] := rfl
  constructor
  · rw [hu]; rfl
  · intro t htm
    fin_cases htm <;>
      exact ⟨_, by rw [hu]; rfl, genSpreadPoints_length _ _ _ _,
        fun p hp => genSpreadPoints_mem _ _ _ _ h p hp⟩

theorem C2_spread_generator_witness :
    RandStream constHalf ∧ C2Concl dehradun constHalf :=
  have h : RandStream constHalf := fun _ => by norm_num [constHalf]
  ⟨h, C2_spread_generator dehradun constHalf h⟩

/-! ## C3: the processing-step simulator (`App.tsx`, `handleRegionSelect`)

The loop mutates `steps[i]` in place and publishes a snapshot of the whole
array after every mutation.  `processTrace` is the ordered list of published
snapshots: the initial all-pending snapshot, then, per step, the
`pending→processing` publish, the five progress publishes (0, 25, 50, 75,
100) and the `completed` publish. -/

def stepNames : List String :=
  ["Loading DEM data (30m resolution)",
   "Processing weather data",
   "Analyzing LULC data",
   "Calculating slope & aspect",
   "Running ML prediction model",
   "Generating fire spread simulation"]

def mkSteps (names : List String) : List ProcessingStep :=
  names.enum.map fun p => { id := p.1 + 1, name := p.2, status := .pending, progress := 0 }

def progressValues : List ℕ := [0, 25, 50, 75, 100]

def stepSnaps (s : ProcessingStep) : List ProcessingStep :=
  { s with status := .processing } ::
    (progressValues.map fun p => { s with status := .processing, progress := p }) ++
    [{ s with status := .completed, progress := 100 }]

def completeStep (s : ProcessingStep) : ProcessingStep :=
  { s with status := .completed, progress := 100 }

def runSteps : List ProcessingStep → List ProcessingStep → List (List ProcessingStep)
  | _done, [] => []
  | done, s :: rest =>
      ((stepSnaps s).map fun s2 => done ++ s2 :: rest) ++
        runSteps (done ++ [completeStep s]) rest

def processTrace (steps : List ProcessingStep) : List (List ProcessingStep) :=
  steps :: runSteps [] steps

def defaultStep : ProcessingStep :=
  { id := 0, name := "", status := .pending, progress := 0 }

/-- The `(status, progress)` history of the step at index `i` across a trace. -/
def observeStep (i : ℕ) (trace : List (List ProcessingStep)) :
    List (StepStatus × ℕ) :=
  trace.map fun snap =>
    ((snap.getD i defaultStep).status, (snap.getD i defaultStep).progress)

/-- The published history of a single step while it is being animated. -/
def progressionBlock : List (StepStatus × ℕ) :=
  [(.processing, 0), (.processing, 0), (.processing, 25), (.processing, 50),
   (.processing, 75), (.processing, 100), (.completed, 100)]

/-- Completion is never observed out of input order in a snapshot. -/
def completedInOrder (snap : List ProcessingStep) : Prop :=
  ∀ i j, i ≤ j → j < snap.length →
    (snap.getD j defaultStep).status = .completed →
    (snap.getD i defaultStep).status = .completed

theorem runSteps_length (todo done : List ProcessingStep) :
    (runSteps done todo).length = 7 * todo.length := by
  induction todo generalizing done with
  | nil => simp [runSteps]
  | cons s rest ih =>
    simp only [runSteps, List.length_append, List.length_map, List.length_cons]
    rw [ih]
    simp [stepSnaps, progressValues]
    omega

theorem runSteps_shape (todo done snap : List ProcessingStep)
    (h : snap ∈ runSteps done todo) :
    ∃ tail, snap = done ++ tail ∧ tail.length = todo.length := by
  induction todo generalizing done with
  | nil => simp [runSteps] at h
  | cons s rest ih =>
    simp only [runSteps, List.mem_append, List.mem_map] at h
    rcases h with ⟨s2, _, rfl⟩ | h
    · exact ⟨s2 :: rest, rfl, by simp⟩
    · obtain ⟨tail, htail, hlen⟩ := ih (done ++ [completeStep s]) h
      refine ⟨completeStep s :: tail, ?_, by simp [hlen]⟩
      rw [htail, List.append_assoc]
      rfl

theorem runSteps_ne_nil (todo done : List ProcessingStep) (h : todo ≠ []) :
    runSteps done todo ≠ [] := by
  rcases todo with _ | ⟨s, rest⟩
  · exact absurd rfl h
  · simp [runSteps, stepSnaps]

theorem runSteps_getLast (todo done : List ProcessingStep) (h : todo ≠ []) :
    (runSteps done todo).getLast? = some (done ++ todo.map completeStep) := by
  induction todo generalizing done with
  | nil => exact absurd rfl h
  | cons s rest ih =>
    rcases eq_or_ne rest [] with rfl | hr
    · rfl
    · have hdef : runSteps done (s :: rest) =
          ((stepSnaps s).map fun x => done ++ x :: rest) ++
            runSteps (done ++ [completeStep s]) rest := rfl
      rw [hdef, List.getLast?_append_of_ne_nil _ (runSteps_ne_nil rest _ hr),
        ih _ hr, List.append_assoc]
      rfl

theorem processTrace_getLast (steps : List ProcessingStep) :
    (processTrace steps).getLast? = some (steps.map completeStep) := by
  rcases eq_or_ne steps [] with rfl | h
  · rfl
  · have hdef : processTrace steps = [steps] ++ runSteps [] steps := rfl
    rw [hdef, List.getLast?_append_of_ne_nil _ (runSteps_ne_nil steps [] h),
      runSteps_getLast steps [] h]
    rfl

theorem stepSnaps_status (s s2 : ProcessingStep) (h : s2 ∈ stepSnaps s) :
    s2.status = .processing ∨ s2.status = .completed := by
  simp only [stepSnaps, progressValues, List.map_cons, List.map_nil,
    List.cons_append, List.nil_append, List.mem_cons, List.not_mem_nil,
    or_false] at h
  rcases h with rfl | rfl | rfl | rfl | rfl | rfl | rfl <;> simp

theorem mkSteps_pending (names : List String) :
    ∀ s ∈ mkSteps names, s.status = .pending ∧ s.progress = 0 := by
  intro s hs
  simp only [mkSteps, List.mem_map] at hs
  obtain ⟨p, _, rfl⟩ := hs
  exact ⟨rfl, rfl⟩

/-- A snapshot splits into a completed block followed by a block with no
completed step. -/
def completedSplit (snap : List ProcessingStep) : Prop :=
  ∃ a b, snap = a ++ b ∧ (∀ s ∈ a, s.status = .completed) ∧
    (∀ s ∈ b, s.status ≠ .completed)

theorem completedSplit_inOrder (snap : List ProcessingStep)
    (h : completedSplit snap) : completedInOrder snap := by
  obtain ⟨a, b, rfl, ha, hb⟩ := h
  intro i j hij hj hcomp
  have hja : j < a.length := by
    by_contra hge
    push_neg at hge
    rw [List.getD_append_right _ _ _ _ hge] at hcomp
    have hjb : j - a.length < b.length := by
      rw [List.length_append] at hj; omega
    rw [List.getD_eq_getElem _ _ hjb] at hcomp
    exact hb _ (List.getElem_mem _) hcomp
  have hia : i < a.length := lt_of_le_of_lt hij hja
  rw [List.getD_append _ _ _ _ hia, List.getD_eq_getElem _ _ hia]
  exact ha _ (List.getElem_mem _)

theorem runSteps_completedSplit (todo : List ProcessingStep) :
    ∀ done snap, (∀ s ∈ done, s.status = .completed) →
      (∀ s ∈ todo, s.status = .pending) →
      snap ∈ runSteps done todo → completedSplit snap := by
  induction todo with
  | nil => intro done snap _ _ h; simp [runSteps] at h
  | cons s rest ih =>
    intro done snap hdone htodo h
    simp only [runSteps, List.mem_append, List.mem_map] at h
    rcases h with ⟨s2, hs2, rfl⟩ | h
    · rcases stepSnaps_status s s2 hs2 with hp | hc
      · refine ⟨done, s2 :: rest, rfl, hdone, ?_⟩
        intro x hx
        rcases List.mem_cons.mp hx with rfl | hx
        · simp [hp]
        · simp [htodo x (List.mem_cons_of_mem _ hx)]
      · refine ⟨done ++ [s2], rest, by simp, ?_, ?_⟩
        · intro x hx
          rcases List.mem_append.mp hx with hx | hx
          · exact hdone x hx
          · rw [List.mem_singleton.mp hx]; exact hc
        · intro x hx
          simp [htodo x (List.mem_cons_of_mem _ hx)]
    · refine ih (done ++ [completeStep s]) snap ?_ ?_ h
      · intro x hx
        rcases List.mem_append.mp hx with hx | hx
        · exact hdone x hx
        · rw [List.mem_singleton.mp hx]; rfl
      · intro x hx
        exact htodo x (List.mem_cons_of_mem _ hx)

theorem getD_append_self (done rest : List ProcessingStep) (x : ProcessingStep) :
    (done ++ x :: rest).getD done.length defaultStep = x := by
  rw [List.getD_append_right _ _ _ _ (le_refl _), Nat.sub_self]
  rfl

theorem getD_append_beyond (done rest : List ProcessingStep) (x : ProcessingStep)
    (i : ℕ) :
    (done ++ x :: rest).getD (done.length + (i + 1)) defaultStep =
      rest.getD i defaultStep := by
  rw [List.getD_append_right _ _ _ _ (Nat.le_add_right _ _),
    Nat.add_sub_cancel_left]
  rfl

theorem observeStep_append (i : ℕ) (a b : List (List ProcessingStep)) :
    observeStep i (a ++ b) = observeStep i a ++ observeStep i b := by
  simp [observeStep]

theorem observeStep_runSteps_done (todo done : List ProcessingStep) (k : ℕ)
    (hk : k < done.length) :
    observeStep k (runSteps done todo) =
      List.replicate (7 * todo.length)
        ((done.getD k defaultStep).status, (done.getD k defaultStep).progress) := by
  refine List.eq_replicate_iff.mpr ⟨by simp [observeStep, runSteps_length], ?_⟩
  intro x hx
  simp only [observeStep, List.mem_map] at hx
  obtain ⟨snap, hsnap, rfl⟩ := hx
  obtain ⟨tail, rfl, _⟩ := runSteps_shape todo done snap hsnap
  rw [List.getD_append _ _ _ _ hk]

theorem observeStep_runSteps (todo : List ProcessingStep) :
    ∀ (done : List ProcessingStep) (i : ℕ), i < todo.length →
      (∀ s ∈ todo, s.status = .pending ∧ s.progress = 0) →
      observeStep (done.length + i) (runSteps done todo) =
        List.replicate (7 * i) (.pending, 0) ++ progressionBlock ++
          List.replicate (7 * (todo.length - 1 - i)) (.completed, 100) := by
  induction todo with
  | nil => intro done i hi _; simp at hi
  | cons s rest ih =>
    intro done i hi htodo
    have hdef : runSteps done (s :: rest) =
        ((stepSnaps s).map fun x => done ++ x :: rest) ++
          runSteps (done ++ [completeStep s]) rest := rfl
    rw [hdef, observeStep_append]
    rcases i with _ | i
    · have hb : observeStep (done.length + 0)
          ((stepSnaps s).map fun x => done ++ x :: rest) = progressionBlock := by
        obtain ⟨_, hp⟩ := htodo s (List.mem_cons_self _ _)
        simp only [Nat.add_zero, observeStep, List.map_map, Function.comp_def,
          getD_append_self]
        simp [stepSnaps, progressValues, progressionBlock, hp]
      have hc : observeStep (done.length + 0)
          (runSteps (done ++ [completeStep s]) rest) =
            List.replicate (7 * rest.length) (.completed, 100) := by
        rw [Nat.add_zero,
          observeStep_runSteps_done rest (done ++ [completeStep s]) done.length
            (by simp)]
        rw [getD_append_self done [] (completeStep s)]
        rfl
      rw [hb, hc]
      simp
    · have hi' : i < rest.length := by simpa using hi
      have hmem : rest.getD i defaultStep ∈ rest := by
        rw [List.getD_eq_getElem _ _ hi']
        exact List.getElem_mem _
      obtain ⟨hs, hp⟩ := htodo _ (List.mem_cons_of_mem _ hmem)
      have hb : observeStep (done.length + (i + 1))
          ((stepSnaps s).map fun x => done ++ x :: rest) =
            List.replicate 7 (.pending, 0) := by
        simp only [observeStep, List.map_map, Function.comp_def, getD_append_beyond]
        simp [stepSnaps, progressValues]
        rw [← List.getD_eq_getElem?_getD]
        exact ⟨hs, hp⟩
      have hidx : done.length + (i + 1) = (done ++ [completeStep s]).length + i := by
        simp
        omega
      have hc := ih (done ++ [completeStep s]) i hi'
        (fun x hx => htodo x (List.mem_cons_of_mem _ hx))
      rw [hb, hidx, hc]
      have hcount : rest.length - 1 - i = (s :: rest).length - 1 - (i + 1) := by
        simp only [List.length_cons]
        omega
      rw [hcount, show 7 * (i + 1) = 7 + 7 * i from by ring, List.replicate_add]
      simp [List.append_assoc]

theorem observeStep_processTrace (names : List String) (i : ℕ)
    (hi : i < names.length) :
    observeStep i (processTrace (mkSteps names)) =
      List.replicate (1 + 7 * i) (.pending, 0) ++ progressionBlock ++
        List.replicate (7 * (names.length - 1 - i)) (.completed, 100) := by
  have hlen : (mkSteps names).length = names.length := by simp [mkSteps]
  have hi' : i < (mkSteps names).length := by omega
  have hinit := mkSteps_pending names ((mkSteps names).getD i defaultStep)
    (by rw [List.getD_eq_getElem _ _ hi']; exact List.getElem_mem _)
  have hobs := observeStep_runSteps (mkSteps names) [] i hi' (mkSteps_pending names)
  have hcons : observeStep i (processTrace (mkSteps names)) =
      (((mkSteps names).getD i defaultStep).status,
       ((mkSteps names).getD i defaultStep).progress) ::
        observeStep i (runSteps [] (mkSteps names)) := rfl
  rw [hcons, hinit.1, hinit.2]
  simp only [List.length_nil, Nat.zero_add, hlen] at hobs
  rw [hobs, show 1 + 7 * i = 7 * i + 1 from by omega, List.replicate_succ]
  simp [List.cons_append]

/-- C3: running the processing-step simulator on an ordered list of N named
steps yields a trace of published snapshots whose terminal snapshot has
exactly N steps, each with status `completed` and progress 100; no snapshot
ever shows a step completed while an earlier step is not (completion happens
in input order); and the published history of each step i is pending at
progress 0, then `pending→processing`, progress advancing 0, 25, 50, 75,
100, then `completed` — entirely before the next step starts. -/
theorem C3_step_simulator (names : List String) :
    (∃ final, (processTrace (mkSteps names)).getLast? = some final ∧
      final.length = names.length ∧
      ∀ s ∈ final, s.status = .completed ∧ s.progress = 100) ∧
    (∀ snap ∈ processTrace (mkSteps names), completedInOrder snap) ∧
    (∀ i, i < names.length →
      observeStep i (processTrace (mkSteps names)) =
        List.replicate (1 + 7 * i) (.pending, 0) ++ progressionBlock ++
          List.replicate (7 * (names.length - 1 - i)) (.completed, 100)) := by
  refine ⟨⟨(mkSteps names).map completeStep, processTrace_getLast _,
    by simp [mkSteps], ?_⟩, ?_, ?_⟩
  · intro s hs
    simp only [List.mem_map] at hs
    obtain ⟨x, _, rfl⟩ := hs
    exact ⟨rfl, rfl⟩
  · intro snap hsnap
    rcases List.mem_cons.mp hsnap with rfl | h
    · exact completedSplit_inOrder _ ⟨[], mkSteps names, rfl, by simp,
        fun s hs => by simp [(mkSteps_pending names s hs).1]⟩
    · exact completedSplit_inOrder _ (runSteps_completedSplit (mkSteps names) []
        snap (by simp) (fun s hs => (mkSteps_pending names s hs).1) h)
  · exact fun i hi => observeStep_processTrace names i hi

/-! ## C4: the simulation playback controller (`SimulationPanel.tsx`)

Each timer tick runs
`onTimeStepChange(timeSteps[(timeSteps.indexOf(cur) + 1) % timeSteps.length])`.
JavaScript `indexOf` yields -1 when the element is absent, which makes the
next index 0; the `none` branch below models that.  The timer period
`2000/speed` governs only when ticks fire, not the advance relation. -/

def nextTimeStep (ts : List ℕ) (cur : ℕ) : ℕ :=
  match ts.findIdx? (· == cur) with
  | some i => ts.getD ((i + 1) % ts.length) 0
  | none => ts.getD 0 0

def tickIter (ts : List ℕ) : ℕ → ℕ → ℕ
  | 0, cur => cur
  | n + 1, cur => tickIter ts n (nextTimeStep ts cur)

theorem nextTimeStep_wrap (ts : List ℕ) (i : ℕ) (hi : i < ts.length)
    (hn : ts.Nodup) :
    nextTimeStep ts (ts.getD i 0) = ts.getD ((i + 1) % ts.length) 0 := by
  have hfind : ts.findIdx? (· == ts.getD i 0) = some i := by
    rw [List.getD_eq_getElem _ _ hi, List.findIdx?_eq_some_iff_findIdx_eq]
    exact ⟨hi, List.indexOf_getElem hn i hi⟩
  rw [nextTimeStep, hfind]

/-- C4: while playing, every tick advances the current time step to the next
entry of the time-step sequence, wrapping from the last entry back to the
first; concretely, starting at time step 1 over [1,2,3,6,12], the iterated
ticks visit 2, 3, 6, 12 and then wrap back to 1. -/
theorem C4_playback_controller (ts : List ℕ) (i : ℕ) (hi : i < ts.length)
    (hn : ts.Nodup) :
    nextTimeStep ts (ts.getD i 0) = ts.getD ((i + 1) % ts.length) 0 ∧
    (List.range 5).map (fun k => tickIter timeStepsList (k + 1) 1) =
      [2, 3, 6, 12, 1] :=
  ⟨nextTimeStep_wrap ts i hi hn, by decide⟩

theorem C4_playback_controller_witness :
    4 < timeStepsList.length ∧ timeStepsList.Nodup ∧
    (nextTimeStep timeStepsList (timeStepsList.getD 4 0) =
        timeStepsList.getD ((4 + 1) % timeStepsList.length) 0 ∧
      (List.range 5).map (fun k => tickIter timeStepsList (k + 1) 1) =
        [2, 3, 6, 12, 1]) :=
  ⟨by decide, by decide,
    C4_playback_controller timeStepsList 4 (by decide) (by decide)⟩

/-! ## Backend responses and the mapping in `handleRegionSelect` (`App.tsx`)

`Option` marks a response field that may be absent.  JavaScript `x || d`
on a number falls back to `d` for `undefined` and for the falsy number 0;
on an array it falls back only for `undefined` (any present array, even
empty, is truthy).  `x ?? d` and the `typeof x === 'number'` test fall back
only when the field is absent. -/

structure FirePrediction where
  confidence : Option ℚ
deriving DecidableEq, Repr

structure SimulationResult where
  totalBurnedArea : Option (List ℚ)
  spreadRate : Option (List ℚ)
deriving DecidableEq, Repr

structure PredictResponse where
  region : String
  fire_prediction : FirePrediction
  simulation_result : SimulationResult
deriving DecidableEq, Repr

/-- JavaScript `x || d` for a possibly-absent number. -/
def orElseNum (x : Option ℚ) (d : ℚ) : ℚ :=
  match x with
  | some v => if v = 0 then d else v
  | none => d

/-- JavaScript `x || d` for a possibly-absent array. -/
def orElseList (x : Option (List ℚ)) (d : List ℚ) : List ℚ := x.getD d

structure PredictionData where
  region : String
  timestamp : ℤ
  riskZones : List RiskZone
  confidence : ℚ
  totalArea : ℚ
  highRiskArea : ℚ
  moderateRiskArea : ℚ
  lowRiskArea : ℚ
deriving DecidableEq, Repr

structure SimulationData where
  region : String
  timestamp : ℤ
  timeSteps : List ℕ
  spreadData : List (ℕ × List SpreadPoint)
  totalBurnedArea : List ℚ
  spreadRate : List ℚ
deriving DecidableEq, Repr

def mkPrediction (region : Region) (data : PredictResponse) (rand : ℕ → ℚ)
    (now : ℤ) : PredictionData :=
  { region := data.region
    timestamp := now
    riskZones := generateMockRiskZones region rand
    confidence := orElseNum data.fire_prediction.confidence (9/10)
    totalArea := region.area
    highRiskArea := region.area * (2/10)
    moderateRiskArea := region.area * (3/10)
    lowRiskArea := region.area * (5/10) }

def mkSimulation (region : Region) (data : PredictResponse) (rand : ℕ → ℚ)
    (now : ℤ) : SimulationData :=
  { region := data.region
    timestamp := now
    timeSteps := timeStepsList
    spreadData := generateMockSpreadData region rand
    totalBurnedArea :=
      orElseList data.simulation_result.totalBurnedArea [50, 100, 180, 300, 500]
    spreadRate := orElseList data.simulation_result.spreadRate [20, 25, 30, 35, 40] }

/-- The view-state fields of the top-level application that
`handleRegionSelect` touches. -/
structure AppState where
  selectedRegion : Option Region
  activeView : String
  isProcessing : Bool
  processingSteps : List ProcessingStep
  predictionData : Option PredictionData
  simulationData : Option SimulationData

/-- `handleRegionSelect` as a state transition: the synchronous prelude
(select the region, enter processing, clear both results, go to the
dashboard view), the scripted step animation (whose published snapshots are
`processTrace`; the state keeps the last one), then the fetch: on success
both results are mapped and stored, on failure the catch only logs; finally
`isProcessing` is cleared. -/
def handleRegionSelect (st : AppState) (region : Region)
    (fetchResult : Except String PredictResponse) (rand : ℕ → ℚ) (now : ℤ) :
    AppState :=
  let st1 : AppState :=
    { st with
      selectedRegion := some region
      isProcessing := true
      predictionData := none
      simulationData := none
      activeView := "dashboard"
      processingSteps := mkSteps stepNames }
  let st2 : AppState :=
    { st1 with
      processingSteps :=
        (processTrace (mkSteps stepNames)).getLastD (mkSteps stepNames) }
  let st3 : AppState :=
    match fetchResult with
    | .ok data =>
        { st2 with
          predictionData := some (mkPrediction region data rand now)
          simulationData := some (mkSimulation region data rand now) }
    | .error _ => st2
  { st3 with isProcessing := false }

/-! ## C5: the parallel-array invariant of `SimulationData` -/

/-- A backend response whose `simulation_result.totalBurnedArea` is present
with a single entry. -/
def respShortArray : PredictResponse :=
  { region := "Dehradun District"
    fire_prediction := { confidence := none }
    simulation_result := { totalBurnedArea := some [50], spreadRate := none } }

/-- A backend response with both simulation arrays absent. -/
def respDefaults : PredictResponse :=
  { region := "Dehradun District"
    fire_prediction := { confidence := none }
    simulation_result := { totalBurnedArea := none, spreadRate := none } }

/-- C5 counterexample: a response whose `totalBurnedArea` array is present
with length 1 produces a `SimulationData` whose burned-area sequence does
not match the length of its time-step sequence. -/
theorem C5_counterexample :
    (mkSimulation dehradun respShortArray constHalf 0).totalBurnedArea.length ≠
      (mkSimulation dehradun respShortArray constHalf 0).timeSteps.length := by
  decide

/-- C5 (amended): the burned-area and spread-rate sequences of a constructed
`SimulationData` match the time-step sequence in length whenever the backend
arrays are absent (the length-5 defaults are substituted) or are present
with length 5; a present array of any other length violates the invariant. -/
theorem C5_parallel_arrays (region : Region) (resp : PredictResponse)
    (rand : ℕ → ℚ) (now : ℤ)
    (h1 : ∀ l, resp.simulation_result.totalBurnedArea = some l → l.length = 5)
    (h2 : ∀ l, resp.simulation_result.spreadRate = some l → l.length = 5) :
    (mkSimulation region resp rand now).totalBurnedArea.length =
      (mkSimulation region resp rand now).timeSteps.length ∧
    (mkSimulation region resp rand now).spreadRate.length =
      (mkSimulation region resp rand now).timeSteps.length := by
  constructor
  · rcases ha : resp.simulation_result.totalBurnedArea with _ | l
    · simp [mkSimulation, orElseList, ha, timeStepsList]
    · simp [mkSimulation, orElseList, ha, timeStepsList, h1 l ha]
  · rcases ha : resp.simulation_result.spreadRate with _ | l
    · simp [mkSimulation, orElseList, ha, timeStepsList]
    · simp [mkSimulation, orElseList, ha, timeStepsList, h2 l ha]

theorem C5_parallel_arrays_witness :
    (∀ l, respDefaults.simulation_result.totalBurnedArea = some l →
      l.length = 5) ∧
    (∀ l, respDefaults.simulation_result.spreadRate = some l → l.length = 5) ∧
    ((mkSimulation dehradun respDefaults constHalf 0).totalBurnedArea.length =
        (mkSimulation dehradun respDefaults constHalf 0).timeSteps.length ∧
      (mkSimulation dehradun respDefaults constHalf 0).spreadRate.length =
        (mkSimulation dehradun respDefaults constHalf 0).timeSteps.length) :=
  ⟨fun l h => by simp [respDefaults] at h,
   fun l h => by simp [respDefaults] at h,
   C5_parallel_arrays dehradun respDefaults constHalf 0
     (fun l h => by simp [respDefaults] at h)
     (fun l h => by simp [respDefaults] at h)⟩

/-! ## C6: failing backend call for the Dehradun region -/

/-- C6: selecting "Dehradun District" (area 3088 km²) with a failing backend
call ends, after the scripted step animation, with `predictionData = none`,
`simulationData = none` and `isProcessing = false`. -/
theorem C6_failing_fetch (st : AppState) (e : String) (rand : ℕ → ℚ)
    (now : ℤ) :
    dehradun.name = "Dehradun District" ∧ dehradun.area = 3088 ∧
    (handleRegionSelect st dehradun (.error e) rand now).predictionData = none ∧
    (handleRegionSelect st dehradun (.error e) rand now).simulationData = none ∧
    (handleRegionSelect st dehradun (.error e) rand now).isProcessing = false :=
  ⟨rfl, rfl, rfl, rfl, rfl⟩

/-! ## The `/api/prediction` mapping in `RiskAnalysis.tsx` -/

structure ApiPredictionResponse where
  high_risk_area_km2 : Option ℚ
  moderate_risk_area_km2 : Option ℚ
  low_risk_area_km2 : Option ℚ
  confidence : Option ℚ
  timestamp : Option ℤ
  overall_risk_level : Option String
deriving DecidableEq, Repr

/-- The `PredictionData`-shaped value `RiskAnalysis` builds (the component
casts it, so only the fields it populates are modelled). -/
structure RAPredictionData where
  highRiskArea : ℚ
  moderateRiskArea : ℚ
  lowRiskArea : ℚ
  confidence : ℚ
  timestamp : ℤ
  overallRiskLevel : Option String
deriving DecidableEq, Repr

/-- JavaScript `x || d` for a possibly-absent integer (epoch ms). -/
def orElseInt (x : Option ℤ) (d : ℤ) : ℤ :=
  match x with
  | some v => if v = 0 then d else v
  | none => d

/-- JavaScript `x || undefined` for a possibly-absent string. -/
def orElseUndef (x : Option String) : Option String :=
  match x with
  | some s => if s = "" then none else some s
  | none => none

def mapApiPrediction (data : ApiPredictionResponse) (now : ℤ) :
    RAPredictionData :=
  { highRiskArea := data.high_risk_area_km2.getD 0
    moderateRiskArea := data.moderate_risk_area_km2.getD 0
    lowRiskArea := data.low_risk_area_km2.getD 0
    confidence := data.confidence.getD (8/10)
    timestamp := orElseInt data.timestamp now
    overallRiskLevel := orElseUndef data.overall_risk_level }

/-! ## C8: the confidence defaults in the two call paths -/

/-- A `/predict` response whose `fire_prediction.confidence` is present as
the number 0. -/
def respZeroConfidence : PredictResponse :=
  { region := "Dehradun District"
    fire_prediction := { confidence := some 0 }
    simulation_result := { totalBurnedArea := none, spreadRate := none } }

/-- C8 counterexample: the `/predict` mapping uses `||`, so a confidence
that is present as the number 0 is replaced by the default 0.9, contradicting
"when the field is present as a number, that value is used". -/
theorem C8_counterexample :
    respZeroConfidence.fire_prediction.confidence = some 0 ∧
    (mkPrediction dehradun respZeroConfidence constHalf 0).confidence = 9/10 :=
  ⟨rfl, by norm_num [mkPrediction, orElseNum, respZeroConfidence]⟩

/-- C8 (amended): an absent confidence defaults to 0.9 in the `/predict`
path and to 0.8 in the `/api/prediction` path; a present numeric value is
used in the `/api/prediction` path always, and in the `/predict` path only
when it is nonzero — a present 0 is falsy under `||` and also yields 0.9. -/
theorem C8_confidence_defaults :
    (∀ (region : Region) (data : PredictResponse) (rand : ℕ → ℚ) (now : ℤ),
      data.fire_prediction.confidence = none →
        (mkPrediction region data rand now).confidence = 9/10) ∧
    (∀ (region : Region) (data : PredictResponse) (rand : ℕ → ℚ) (now : ℤ),
      data.fire_prediction.confidence = some 0 →
        (mkPrediction region data rand now).confidence = 9/10) ∧
    (∀ (region : Region) (data : PredictResponse) (rand : ℕ → ℚ) (now : ℤ)
      (v : ℚ), data.fire_prediction.confidence = some v → v ≠ 0 →
        (mkPrediction region data rand now).confidence = v) ∧
    (∀ (data : ApiPredictionResponse) (now : ℤ), data.confidence = none →
      (mapApiPrediction data now).confidence = 8/10) ∧
    (∀ (data : ApiPredictionResponse) (now : ℤ) (v : ℚ),
      data.confidence = some v → (mapApiPrediction data now).confidence = v) := by
  refine ⟨?_, ?_, ?_, ?_, ?_⟩
  · intro region data rand now h
    simp [mkPrediction, orElseNum, h]
  · intro region data rand now h
    simp [mkPrediction, orElseNum, h]
  · intro region data rand now v h hv
    simp [mkPrediction, orElseNum, h, hv]
  · intro data now h
    simp [mapApiPrediction, h]
  · intro data now v h
    simp [mapApiPrediction, h]

/-! ## C7: abort-on-supersede in `RiskAnalysis`

The fetch effect creates an `AbortController` per run, and its cleanup —
run when the selected region changes, before the next effect — calls
`controller.abort()`.  A fetch whose controller is aborted rejects with an
`AbortError`, which the catch clause explicitly ignores (`name !==
'AbortError'`); only a live fetch's success applies `setLocalData`.  The
state below tracks the live controller id, the set of aborted ids, the
stored `localData` and which fetches got applied. -/

structure RAState where
  liveController : ℕ
  aborted : List ℕ
  localData : Option RAPredictionData
  applied : List ℕ
deriving DecidableEq, Repr

/-- Effect re-run for a new region: the cleanup aborts the previous
controller, then the new effect issues a fetch with a fresh controller. -/
def supersedeFetch (st : RAState) (newId : ℕ) : RAState :=
  { st with
    aborted := st.liveController :: st.aborted
    liveController := newId }

/-- A fetch resolution arriving: an aborted fetch rejected with `AbortError`
and its handler does nothing; otherwise the mapped result is stored. -/
def resolveFetch (st : RAState) (id : ℕ) (data : ApiPredictionResponse)
    (now : ℤ) : RAState :=
  if id ∈ st.aborted then st
  else
    { st with
      localData := some (mapApiPrediction data now)
      applied := st.applied ++ [id] }

/-- The component state after mount, with fetch 1 in flight. -/
def raMounted : RAState :=
  { liveController := 1, aborted := [], localData := none, applied := [] }

/-- C7: when a second fetch (id 2) supersedes the in-flight fetch 1, then in
either arrival order of the two resolutions, exactly one result is applied —
the second — and fetch 1's resolution never overwrites the state. -/
theorem C7_abort_on_supersede (d1 d2 : ApiPredictionResponse)
    (now1 now2 : ℤ) :
    ((resolveFetch (resolveFetch (supersedeFetch raMounted 2) 1 d1 now1)
        2 d2 now2).localData = some (mapApiPrediction d2 now2) ∧
      (resolveFetch (resolveFetch (supersedeFetch raMounted 2) 1 d1 now1)
        2 d2 now2).applied = [2]) ∧
    ((resolveFetch (resolveFetch (supersedeFetch raMounted 2) 2 d2 now2)
        1 d1 now1).localData = some (mapApiPrediction d2 now2) ∧
      (resolveFetch (resolveFetch (supersedeFetch raMounted 2) 2 d2 now2)
        1 d1 now1).applied = [2]) := by
  refine ⟨⟨?_, ?_⟩, ?_, ?_⟩ <;>
    simp [resolveFetch, supersedeFetch, raMounted]

/-! ## C10: the percentage denominator guard in `RiskAnalysis`

`totalArea = high + moderate + low || 0.000001`: a zero sum is falsy, so
the constant 0.000001 is substituted.  The `toFixed(1)`/`parseFloat`
rounding applied for display is presentational and not modelled. -/

def totalAreaDenominator (pd : RAPredictionData) : ℚ :=
  if pd.highRiskArea + pd.moderateRiskArea + pd.lowRiskArea = 0 then 1/1000000
  else pd.highRiskArea + pd.moderateRiskArea + pd.lowRiskArea

def riskPercentages (pd : RAPredictionData) : ℚ × ℚ × ℚ :=
  (pd.highRiskArea / totalAreaDenominator pd * 100,
   pd.moderateRiskArea / totalAreaDenominator pd * 100,
   pd.lowRiskArea / totalAreaDenominator pd * 100)

/-- C10: the percentage denominator is never zero — when the three risk
areas sum to 0 it is replaced by 0.000001 — so each displayed percentage is
the well-defined ratio of its area to the (nonzero) denominator. -/
theorem C10_denominator_guard (pd : RAPredictionData) :
    totalAreaDenominator pd ≠ 0 ∧
    (pd.highRiskArea + pd.moderateRiskArea + pd.lowRiskArea = 0 →
      totalAreaDenominator pd = 1/1000000) ∧
    (pd.highRiskArea + pd.moderateRiskArea + pd.lowRiskArea ≠ 0 →
      totalAreaDenominator pd =
        pd.highRiskArea + pd.moderateRiskArea + pd.lowRiskArea) ∧
    (riskPercentages pd).1 * totalAreaDenominator pd = pd.highRiskArea * 100 ∧
    (riskPercentages pd).2.1 * totalAreaDenominator pd =
      pd.moderateRiskArea * 100 ∧
    (riskPercentages pd).2.2 * totalAreaDenominator pd = pd.lowRiskArea * 100 := by
  have hne : totalAreaDenominator pd ≠ 0 := by
    rw [totalAreaDenominator]
    split_ifs with h
    · norm_num
    · exact h
  refine ⟨hne, fun h => by simp [totalAreaDenominator, h],
    fun h => by simp [totalAreaDenominator, h], ?_, ?_, ?_⟩ <;>
    · simp only [riskPercentages]
      field_simp

/-! ## C9: exporting `predictionData` as JSON (`DownloadReports.tsx`)

`handleDownload('prediction', 'json')` serializes `predictionData` with
`JSON.stringify(data, null, 2)` into a blob.  JSON text has no `Date`
value: `JSON.stringify` serializes a `Date` through its `toJSON` method as
its ISO-8601 string, so `JSON.parse` of the text yields a string in that
position.  `JsValue` models the JavaScript values in play and
`parseStringify` the composite `JSON.parse(JSON.stringify(·))`
(environment semantics, not repository code): the identity on null,
booleans, numbers, strings, arrays and objects, sending a `Date` to its
ISO string.  `dateToIso` stands for `Date.prototype.toISOString`; the
theorems below depend only on it producing a string. -/

inductive JsValue
  | null
  | bool (b : Bool)
  | num (q : ℚ)
  | str (s : String)
  | date (ms : ℤ)
  | arr (items : List JsValue)
  | obj (fields : List (String × JsValue))
deriving Repr

def dateToIso (ms : ℤ) : String := toString ms

def parseStringify : JsValue → JsValue
  | .null => .null
  | .bool b => .bool b
  | .num q => .num q
  | .str s => .str s
  | .date ms => .str (dateToIso ms)
  | .arr items => .arr (items.attach.map fun x => parseStringify x.1)
  | .obj fields => .obj (fields.attach.map fun p => (p.1.1, parseStringify p.1.2))
decreasing_by
  · have h := List.sizeOf_lt_of_mem x.2
    simp_wf
    omega
  · obtain ⟨⟨k, v⟩, hp⟩ := p
    have h := List.sizeOf_lt_of_mem hp
    simp only [Prod.mk.sizeOf_spec] at h
    simp_wf
    omega

def riskString : Risk → String
  | .high => "high"
  | .moderate => "moderate"
  | .low => "low"

def encodeRiskZone (z : RiskZone) : JsValue :=
  .obj [("id", .num z.id), ("lat", .num z.lat), ("lng", .num z.lng),
        ("risk", .str (riskString z.risk)), ("confidence", .num z.confidence)]

/-- `predictionData` as the JavaScript value handed to `JSON.stringify`. -/
def encodePredictionData (pd : PredictionData) : JsValue :=
  .obj [("region", .str pd.region),
        ("timestamp", .date pd.timestamp),
        ("riskZones", .arr (pd.riskZones.map encodeRiskZone)),
        ("confidence", .num pd.confidence),
        ("totalArea", .num pd.totalArea),
        ("highRiskArea", .num pd.highRiskArea),
        ("moderateRiskArea", .num pd.moderateRiskArea),
        ("lowRiskArea", .num pd.lowRiskArea)]

def lookupField (v : JsValue) (k : String) : Option JsValue :=
  match v with
  | .obj fields => fields.lookup k
  | _ => none

/-- A concrete `PredictionData` as the app builds it on a successful fetch. -/
def samplePrediction : PredictionData :=
  mkPrediction dehradun respDefaults constHalf 1700000000000

theorem parseStringify_arr (items : List JsValue) :
    parseStringify (.arr items) = .arr (items.map parseStringify) := by
  rw [parseStringify]
  exact congrArg JsValue.arr (List.attach_map_val items parseStringify)

theorem parseStringify_obj (fields : List (String × JsValue)) :
    parseStringify (.obj fields) =
      .obj (fields.map fun p => (p.1, parseStringify p.2)) := by
  rw [parseStringify]
  exact congrArg JsValue.obj
    (List.attach_map_val fields fun p => (p.1, parseStringify p.2))

theorem parseStringify_encodeRiskZone (z : RiskZone) :
    parseStringify (encodeRiskZone z) = encodeRiskZone z := by
  rw [encodeRiskZone, parseStringify_obj]
  simp [parseStringify]

/-- C9 counterexample: round-tripping a concrete exported `predictionData`
(as built by the app on a successful fetch) does not reproduce the original
value — the `timestamp` field comes back as the ISO string, not a `Date`. -/
theorem C9_counterexample :
    parseStringify (encodePredictionData samplePrediction) ≠
      encodePredictionData samplePrediction := by
  intro h
  have h2 := congrArg (fun v => lookupField v "timestamp") h
  rw [encodePredictionData, parseStringify_obj] at h2
  simp [lookupField, List.lookup, parseStringify] at h2

/-- C9 (amended): parsing the exported JSON text back yields the original
object with every field preserved exactly — region, risk zones, confidence
and the four areas — except `timestamp`, which is returned as its ISO-8601
string serialization rather than a `Date`. -/
theorem C9_export_roundTrip (pd : PredictionData) :
    parseStringify (encodePredictionData pd) =
      JsValue.obj
        [("region", .str pd.region),
         ("timestamp", .str (dateToIso pd.timestamp)),
         ("riskZones", .arr (pd.riskZones.map encodeRiskZone)),
         ("confidence", .num pd.confidence),
         ("totalArea", .num pd.totalArea),
         ("highRiskArea", .num pd.highRiskArea),
         ("moderateRiskArea", .num pd.moderateRiskArea),
         ("lowRiskArea", .num pd.lowRiskArea)] := by
  have hmap : pd.riskZones.map (fun z => parseStringify (encodeRiskZone z)) =
      pd.riskZones.map encodeRiskZone :=
    List.map_eq_map_iff.mpr fun z _ => parseStringify_encodeRiskZone z
  rw [encodePredictionData, parseStringify_obj]
  simp only [List.map_cons, List.map_nil, parseStringify_arr, List.map_map,
    Function.comp_def, hmap]
  simp [parseStringify]
